import Mathlib

/-!
Shallow embedding of `src/server.js` (Flodaz community API): identity
derivation helpers, avatar initials, the feed/post/comment handlers and
their composers, modelled as total Lean functions. External collaborators
(the relational store, the identity provider) are passed in as explicit
arguments or `Except` results, mirroring the data / error pairs the code
receives from them.
-/

namespace Render

/-- JavaScript string truthiness for an optional field: present and
non-empty. Mirrors `if (x)` / `x || y` on string-valued fields. -/
def jsTruthyStr (a : Option String) : Bool :=
  match a with
  | some s => s ≠ ""
  | none => false

/-- JavaScript `a || b` on an optional string field: falls through when
the field is absent or the empty string. -/
def jsOr (a : Option String) (b : String) : String :=
  match a with
  | some s => if s = "" then b else s
  | none => b

/-- JS `String.prototype.split` at the character level: cut the list at
every character satisfying `p`, keeping empty segments, as JS does
(`"".split(x) = [""]`, `"a@@b".split('@') = ["a","","b"]`). -/
def splitChars (p : Char → Bool) : List Char → List (List Char)
  | [] => [[]]
  | c :: cs =>
    match splitChars p cs with
    | [] => [[]]
    | t :: ts => if p c then [] :: t :: ts else (c :: t) :: ts

/-- JS `s.split(sep)` for a one-character separator class. -/
def jsSplit (p : Char → Bool) (s : String) : List String :=
  (splitChars p s.data).map String.mk

/-- `email.split('@')[0]`: the substring before the first `@` (the whole
string when no `@` occurs). -/
def emailLocalPart (email : String) : String :=
  (jsSplit (fun c => c = '@') email).headD ""

/-- A raw `auth.users` record as the handlers see it: id, required email,
and the optional `raw_user_meta_data` fields used by the code. -/
structure AuthUser where
  id : String
  email : String
  full_name : Option String
  name : Option String
  username : Option String
  account_type : Option String
deriving Repr, DecidableEq

/-- The display identity produced by `getUserInfo`. -/
structure UserInfo where
  id : String
  email : String
  fullName : String
  username : String
  accountType : String
deriving Repr, DecidableEq

/-- The top-level `getUserInfo` helper (src/server.js:77-88), used by the
feed, comments, create-post and create-comment handlers. Its handle
fallback is `metadata.username || email.split('@')[0]` with no
first-name step. -/
def getUserInfo (u : AuthUser) : UserInfo :=
  { id := u.id
    email := u.email
    fullName := jsOr u.full_name (jsOr u.name (emailLocalPart u.email))
    username := jsOr u.username (emailLocalPart u.email)
    accountType := jsOr u.account_type "free" }

/-- The `fullName` fallback chain shared by both `getUserInfo`
variants: `metadata.full_name || metadata.name || email.split('@')[0]`. -/
def derivedFullName (u : AuthUser) : String :=
  jsOr u.full_name (jsOr u.name (emailLocalPart u.email))

/-- `fullName.split(' ')[0]`: the first space-delimited token of the
derived full name (src/server.js:368). -/
def firstNameCandidate (u : AuthUser) : String :=
  (jsSplit (fun c => c = ' ') (derivedFullName u)).headD ""

/-- The local duplicate `getUserInfo` defined inside the
`GET /api/posts/:id` handler (src/server.js:359-387): the refined
fallback chain `username > first name (when it differs from the email
local-part) > email local-part`. It is defined but never applied on any
response path. -/
def getUserInfoLocal (u : AuthUser) : UserInfo :=
  let fullName := derivedFullName u
  let firstName := firstNameCandidate u
  let username :=
    if jsTruthyStr u.username then u.username.getD ""
    else if firstName ≠ "" && firstName ≠ emailLocalPart u.email then firstName
    else emailLocalPart u.email
  { id := u.id
    email := u.email
    fullName := fullName
    username := username
    accountType := jsOr u.account_type "free" }

/-- `createAvatarInitials` (src/server.js:91-98). An absent (`none`) or
empty name is falsy in `if (!fullName)` and yields `"U"`; otherwise the
name is split on the space character, the first character of each
segment taken (an empty segment contributes nothing, as JS renders the
resulting `undefined` as the empty string in `join`), joined, uppercased
and truncated to two characters. -/
def createAvatarInitials (fullName : Option String) : String :=
  match fullName with
  | none => "U"
  | some s =>
    if s = "" then "U"
    else String.mk ((((splitChars (fun c => c = ' ') s.data).map
      (fun n => n.take 1)).flatten.map Char.toUpper).take 2)

/-- Modelled from the spec: the avatar deriver as §4.2 words it — split
on whitespace (any whitespace character), take the first character of
each whitespace-delimited token, concatenate, uppercase, truncate to at
most two characters; a single placeholder for absent or empty names. -/
def specWhitespaceInitials (fullName : Option String) : String :=
  match fullName with
  | none => "U"
  | some s =>
    if s = "" then "U"
    else String.mk (((((splitChars Char.isWhitespace s.data).filter
      (fun t => t ≠ [])).map (fun n => n.take 1)).flatten.map
        Char.toUpper).take 2)

/-- A content row as selected by the feed query (src/server.js:169-193);
optional columns may be null in the store. The recipe substructure is
opaque to this layer and modelled as a string payload. -/
structure Post where
  id : Int
  user_id : String
  type : String
  title : String
  content : String
  images : Option (List String)
  tags : Option (List String)
  recipe_data : Option String
  likes : Option Int
  shares : Option Int
  comment_count : Option Int
  created_at : String
deriving Repr, DecidableEq

/-- The `author` sub-object of a public post or comment. -/
structure Author where
  name : String
  username : String
  avatar : String
deriving Repr, DecidableEq

/-- The public post representation emitted by the feed transform
(src/server.js:219-246). -/
structure PublicPost where
  id : Int
  type : String
  title : String
  content : String
  images : List String
  tags : List String
  likes : Int
  comments : Int
  shares : Int
  liked : Bool
  bookmarked : Bool
  timestamp : String
  author : Author
  recipe : Option String
deriving Repr, DecidableEq

/-- `userMap[user.id] = getUserInfo(user)` over the list returned by the
identity lookup (src/server.js:211-216); a later entry overwrites an
earlier one with the same id, as assignment into a JS object does. -/
def buildUserMap (users : List AuthUser) : String → Option UserInfo :=
  users.foldl
    (fun m u => fun k => if k = u.id then some (getUserInfo u) else m k)
    (fun _ => none)

/-- The sentinel used when a creator id is absent from the user map
(src/server.js:220-224): `fullName 'Anonymous'`, `username 'anonymous'`. -/
def anonymousName : String := "Anonymous"

/-- The author object the transforms emit for an unresolved creator id. -/
def anonymousAuthor : Author :=
  { name := "Anonymous", username := "anonymous"
    avatar := createAvatarInitials (some "Anonymous") }

/-- The per-row feed transform (src/server.js:219-246). `fmt` stands in
for `new Date(...).toLocaleString()`, which depends on the runtime
locale and is opaque to this layer. -/
def transformPost (userMap : String → Option UserInfo)
    (fmt : String → String) (post : Post) : PublicPost :=
  let name :=
    match userMap post.user_id with
    | some u => u.fullName
    | none => anonymousName
  let username :=
    match userMap post.user_id with
    | some u => u.username
    | none => "anonymous"
  { id := post.id
    type := post.type
    title := post.title
    content := post.content
    images := post.images.getD []
    tags := post.tags.getD []
    likes := post.likes.getD 0
    comments := post.comment_count.getD 0
    shares := post.shares.getD 0
    liked := false
    bookmarked := false
    timestamp := fmt post.created_at
    author :=
      { name := name
        username := username
        avatar := createAvatarInitials (some name) }
    recipe := post.recipe_data }

/-- Parsed query parameters of `GET /api/posts` with their defaults
(src/server.js:165). -/
structure PostsQuery where
  page : Nat := 1
  limit : Nat := 10
  type : Option String := none
deriving Repr, DecidableEq

/-- The store-side query the feed handler issues (filter by type unless
absent or `'all'`, then `range(offset, offset + limit - 1)`, i.e. at
most `limit` rows starting at `offset`). The store list is taken in the
order the store returns it (`order('created_at', desc)` is delegated to
the external store). -/
def runPostsQuery (store : List Post) (q : PostsQuery) : List Post :=
  let filtered :=
    match q.type with
    | some t => if t ≠ "all" then store.filter (fun p : Post => p.type == t) else store
    | none => store
  (filtered.drop ((q.page - 1) * q.limit)).take q.limit

/-- The `pagination` object of the feed response (src/server.js:250-255). -/
structure Pagination where
  page : Nat
  limit : Nat
  total : Nat
  hasMore : Bool
deriving Repr, DecidableEq

/-- The feed response body. -/
structure PostsResponse where
  posts : List PublicPost
  pagination : Pagination
deriving Repr, DecidableEq

/-- `GET /api/posts` (src/server.js:163-261). `storeFails` is the error
half of the posts query; `users` is the result of the batched
`auth.admin.listUsers` lookup — on its failure the handler only logs
and proceeds with an empty user map. The error value is the 500 body. -/
def getPostsHandler (store : List Post) (storeFails : Bool)
    (users : Except Unit (List AuthUser)) (fmt : String → String)
    (q : PostsQuery) : Except (Nat × String) PostsResponse :=
  if storeFails then .error (500, "Failed to fetch posts")
  else
    let posts := runPostsQuery store q
    let userMap :=
      match users with
      | .ok us => buildUserMap us
      | .error _ => buildUserMap []
    .ok
      { posts := posts.map (transformPost userMap fmt)
        pagination :=
          { page := q.page
            limit := q.limit
            total := posts.length
            hasMore := posts.length == q.limit } }

/-- A comment row as stored (src/server.js:507-516). -/
structure Comment where
  id : Int
  post_id : Int
  user_id : String
  content : String
  created_at : String
deriving Repr, DecidableEq

/-- The public comment representation (src/server.js:468-484). -/
structure PublicComment where
  id : Int
  content : String
  timestamp : String
  author : Author
deriving Repr, DecidableEq

/-- The per-row comment transform (src/server.js:468-484), analogous to
the feed transform. -/
def transformComment (userMap : String → Option UserInfo)
    (fmt : String → String) (c : Comment) : PublicComment :=
  let name :=
    match userMap c.user_id with
    | some u => u.fullName
    | none => anonymousName
  let username :=
    match userMap c.user_id with
    | some u => u.username
    | none => "anonymous"
  { id := c.id
    content := c.content
    timestamp := fmt c.created_at
    author :=
      { name := name
        username := username
        avatar := createAvatarInitials (some name) } }

/-- `GET /api/comments/:postId` (src/server.js:439-491): on a failed
comments read, 500; on a failed identity lookup, an empty user map and
a normal 200 with every author resolved through the sentinel path. -/
def getCommentsHandler (rows : Except Unit (List Comment))
    (users : Except Unit (List AuthUser)) (fmt : String → String) :
    Except (Nat × String) (List PublicComment) :=
  match rows with
  | .error _ => .error (500, "Failed to fetch comments")
  | .ok comments =>
    let userMap :=
      match users with
      | .ok us => buildUserMap us
      | .error _ => buildUserMap []
    .ok (comments.map (transformComment userMap fmt))

/-- The `tags` field of a create-post request body: a JSON array, a
string, or absent (src/server.js:280 accepts all three). -/
inductive TagsField where
  | arr (ts : List String)
  | str (s : String)
  | absent
deriving Repr, DecidableEq

/-- The body of `POST /api/posts` (src/server.js:266). The recipe
payload is a JSON object, opaque to this layer; being an object it is
always truthy when present. -/
structure PostReq where
  type : Option String
  title : Option String
  content : Option String
  tags : TagsField
  images : Option (List String)
  recipe : Option String
  userId : Option String
deriving Repr, DecidableEq

/-- The record handed to the insert (src/server.js:276-292):
`recipe_data` is attached only when `type === 'recipe'` and a recipe
payload is present. -/
structure PostData where
  type : String
  title : String
  content : String
  tags : List String
  images : List String
  user_id : String
  likes : Int
  shares : Int
  comment_count : Int
  created_at : String
  recipe_data : Option String
deriving Repr, DecidableEq

/-- Normalization of the `tags` field (src/server.js:280): keep an
array; split a truthy string on commas and trim each piece; default to
the empty list. -/
def normalizeTags (t : TagsField) : List String :=
  match t with
  | .arr ts => ts
  | .str s =>
    if s = "" then []
    else (jsSplit (fun c => c = ',') s).map (fun x =>
      String.mk (((x.data.dropWhile Char.isWhitespace).reverse.dropWhile
        Char.isWhitespace).reverse))
  | .absent => []

/-- Outcome of `POST /api/posts`: the HTTP status, the transformed post
of a 201 body (when any), and the record passed to the store insert
(`none` when no insert was attempted). -/
structure CreatePostOutcome where
  status : Nat
  post : Option PublicPost
  error : Option String
  attemptedInsert : Option PostData
deriving Repr, DecidableEq

/-- The author object built for a create response (src/server.js:307-311
and 533-537): the sentinel unless the `getUserById` lookup succeeded
with a user. -/
def createResponseAuthor (userFetch : Except Unit (Option AuthUser)) : Author :=
  match userFetch with
  | .ok (some u) =>
    { name := (getUserInfo u).fullName
      username := (getUserInfo u).username
      avatar := createAvatarInitials (some (getUserInfo u).fullName) }
  | _ => anonymousAuthor

/-- `POST /api/posts` (src/server.js:264-341). `now` is the
`new Date().toISOString()` instant; `insertFails` the error half of the
insert; `assignId` the store-assigned id of the inserted row, which the
`insert(...).select().single()` call echoes back as `newPost`. -/
def createPostHandler (req : PostReq) (now : String) (insertFails : Bool)
    (assignId : PostData → Int) (userFetch : Except Unit (Option AuthUser)) :
    CreatePostOutcome :=
  if !(jsTruthyStr req.type && jsTruthyStr req.title && jsTruthyStr req.content) then
    { status := 400, post := none
      error := some "Type, title, and content are required"
      attemptedInsert := none }
  else if !jsTruthyStr req.userId then
    { status := 400, post := none
      error := some "User ID is required"
      attemptedInsert := none }
  else
    let postData : PostData :=
      { type := req.type.getD ""
        title := req.title.getD ""
        content := req.content.getD ""
        tags := normalizeTags req.tags
        images := req.images.getD []
        user_id := req.userId.getD ""
        likes := 0
        shares := 0
        comment_count := 0
        created_at := now
        recipe_data :=
          if req.type.getD "" = "recipe" && req.recipe.isSome
          then req.recipe else none }
    if insertFails then
      { status := 500, post := none
        error := some "Failed to create post"
        attemptedInsert := some postData }
    else
      let newPost : Post :=
        { id := assignId postData
          user_id := postData.user_id
          type := postData.type
          title := postData.title
          content := postData.content
          images := some postData.images
          tags := some postData.tags
          recipe_data := postData.recipe_data
          likes := some postData.likes
          shares := some postData.shares
          comment_count := some postData.comment_count
          created_at := postData.created_at }
      let author := createResponseAuthor userFetch
      { status := 201
        post := some
          { id := newPost.id
            type := newPost.type
            title := newPost.title
            content := newPost.content
            images := newPost.images.getD []
            tags := newPost.tags.getD []
            likes := 0
            comments := 0
            shares := 0
            liked := false
            bookmarked := false
            timestamp := "Just now"
            author := author
            recipe := newPost.recipe_data }
        error := none
        attemptedInsert := some postData }

/-- The single column the like handler selects (src/server.js:404-408);
the stored `likes` value may be null. -/
structure LikeRow where
  likes : Option Int
deriving Repr, DecidableEq

/-- Outcome of `POST /api/posts/:id/like`: status, the `liked`/`likes`
body fields of a 200 response, and the value handed to the update call
(`none` when no write was attempted). -/
structure LikeOutcome where
  status : Nat
  liked : Option Bool
  likes : Option Int
  error : Option String
  written : Option Int
deriving Repr, DecidableEq

/-- `POST /api/posts/:id/like` (src/server.js:399-436). `fetchRes` is
the `select('likes').single()` result: an error, or the row when one
matched (`none` when the id matched no row); the handler cannot tell a
read failure from a missing row — `if (fetchError || !post)` returns
404 for both. `updateFails` is the error half of the write-back. -/
def likePostHandler (fetchRes : Except Unit (Option LikeRow))
    (updateFails : Bool) : LikeOutcome :=
  match fetchRes with
  | .error _ =>
    { status := 404, liked := none, likes := none
      error := some "Post not found", written := none }
  | .ok none =>
    { status := 404, liked := none, likes := none
      error := some "Post not found", written := none }
  | .ok (some post) =>
    let newLikesCount := post.likes.getD 0 + 1
    if updateFails then
      { status := 500, liked := none, likes := none
        error := some "Failed to like post", written := some newLikesCount }
    else
      { status := 200, liked := some true, likes := some newLikesCount
        error := none, written := some newLikesCount }

/-- The body of `POST /api/comments` (src/server.js:496). `postId` may
arrive as a number or numeric string; it is modelled after parsing,
with JS truthiness `postId ≠ 0`. -/
structure CommentReq where
  postId : Option Int
  content : Option String
  userId : Option String
deriving Repr, DecidableEq

/-- Truthiness of the `postId` field: present and non-zero. -/
def jsTruthyInt (a : Option Int) : Bool :=
  match a with
  | some n => n ≠ 0
  | none => false

/-- The comment body of a 201 create-comment response
(src/server.js:539-551). -/
structure CommentOut where
  id : Int
  content : String
  timestamp : String
  author : Author
deriving Repr, DecidableEq

/-- Outcome of `POST /api/comments`: status, 201 body when any, error
body when any, and whether a comment insert was attempted. -/
structure CreateCommentOutcome where
  status : Nat
  comment : Option CommentOut
  error : Option String
  attemptedInsert : Bool
deriving Repr, DecidableEq

/-- `POST /api/comments` (src/server.js:494-556). `insert` is the
comment insert result (the stored row echoed back); `incrementFails`
the error half of the `increment_comment_count` RPC, which the code
only logs (src/server.js:524-529); `userFetch` the `getUserById`
lookup for the response author. -/
def createCommentHandler (req : CommentReq)
    (insert : Except Unit Comment) (incrementFails : Bool)
    (userFetch : Except Unit (Option AuthUser)) : CreateCommentOutcome :=
  if !(jsTruthyInt req.postId && jsTruthyStr req.content) then
    { status := 400, comment := none
      error := some "Post ID and content are required"
      attemptedInsert := false }
  else if !jsTruthyStr req.userId then
    { status := 400, comment := none
      error := some "User ID is required"
      attemptedInsert := false }
  else
    match insert with
    | .error _ =>
      { status := 500, comment := none
        error := some "Failed to create comment"
        attemptedInsert := true }
    | .ok newComment =>
      let _ := incrementFails
      let author := createResponseAuthor userFetch
      { status := 201
        comment := some
          { id := newComment.id
            content := newComment.content
            timestamp := "Just now"
            author := author }
        error := none
        attemptedInsert := true }

/-- `GET /api/posts/:id` (src/server.js:344-396). After the 404 guard
the code defines the local refined `getUserInfo` but never calls it,
and then evaluates `transformedPost`, an identifier that is not bound
anywhere in the handler: in JavaScript this throws a ReferenceError,
which the surrounding try/catch converts into the 500 branch
(src/server.js:392-395). The success path therefore can never produce
a 200. -/
def getPostByIdHandler (fetchRes : Except Unit (Option Post)) :
    Nat × String :=
  match fetchRes with
  | .error _ => (404, "Post not found")
  | .ok none => (404, "Post not found")
  | .ok (some _) => (500, "Failed to fetch post")

/-- The spec's worked identity example: `{email:"a@x.com",
full_name:"Ann Lee"}` with no username. -/
def annLeeRecord : AuthUser :=
  { id := "u1", email := "a@x.com", full_name := some "Ann Lee"
    name := none, username := none, account_type := none }

/-- A concrete content row for witnesses. -/
def samplePost : Post :=
  { id := 1, user_id := "u1", type := "text", title := "Hello"
    content := "World", images := none, tags := none, recipe_data := none
    likes := none, shares := none, comment_count := none
    created_at := "2024-01-01T00:00:00Z" }

/-- A concrete stored comment row for witnesses. -/
def sampleComment : Comment :=
  { id := 7, post_id := 1, user_id := "u1", content := "Nice"
    created_at := "2024-01-01T00:00:00Z" }

/-- A concrete create-comment body for witnesses. -/
def sampleCommentReq : CommentReq :=
  { postId := some 1, content := some "Nice", userId := some "u1" }

/-- A concrete recipe create-post body for witnesses. -/
def recipeReq : PostReq :=
  { type := some "recipe", title := some "T", content := some "C"
    tags := TagsField.absent, images := none, recipe := some "pancakes"
    userId := some "u1" }

/-- A create-post body with the required `title` missing, for witnesses. -/
def missingTitleReq : PostReq :=
  { type := some "text", title := none, content := some "C"
    tags := TagsField.absent, images := none, recipe := none
    userId := some "u1" }

/-- Projects the `hasMore` flag out of a feed handler result. -/
def feedHasMore (r : Except (Nat × String) PostsResponse) : Option Bool :=
  match r with
  | .ok resp => some resp.pagination.hasMore
  | .error _ => none

/-- The feed response computed for a store holding exactly `samplePost`,
queried with `page = 1`, `limit = 1` and a failed identity lookup. -/
def onePostResp : PostsResponse :=
  { posts := [transformPost (buildUserMap []) (fun x => x) samplePost]
    pagination := { page := 1, limit := 1, total := 1, hasMore := true } }

/-- The recipe field of the post in a 201 create-post body, when any. -/
def postRecipeOf (o : CreatePostOutcome) : Option (Option String) :=
  o.post.map (fun tp => tp.recipe)

/-- The `recipe_data` column of the record handed to the insert, when
an insert was attempted. -/
def insertRecipeOf (o : CreatePostOutcome) : Option (Option String) :=
  o.attemptedInsert.map (fun pd => pd.recipe_data)

/-- The empty user map resolves no identifier. -/
theorem buildUserMap_nil (k : String) : buildUserMap [] k = none := rfl

/-- A creator id unresolved by the user map gets the sentinel author. -/
theorem transformPost_author_of_unresolved (m : String → Option UserInfo)
    (fmt : String → String) (p : Post) (h : m p.user_id = none) :
    (transformPost m fmt p).author = anonymousAuthor := by
  simp [transformPost, h, anonymousAuthor, anonymousName]

/-- A creator id unresolved by the user map gets the sentinel author,
comment version. -/
theorem transformComment_author_of_unresolved (m : String → Option UserInfo)
    (fmt : String → String) (c : Comment) (h : m c.user_id = none) :
    (transformComment m fmt c).author = anonymousAuthor := by
  simp [transformComment, h, anonymousAuthor, anonymousName]

/-- C2. The `GET /api/posts/:id` handler cannot answer 200 on an
existing post: its success path evaluates the unbound `transformedPost`
and lands in the catch block as a 500, while a missing row (or read
failure) yields the 404 branch as documented. -/
theorem getPostById_existing_post_500 :
    getPostByIdHandler (Except.ok (some samplePost)) = (500, "Failed to fetch post")
    ∧ getPostByIdHandler (Except.ok none) = (404, "Post not found")
    ∧ getPostByIdHandler (Except.error ()) = (404, "Post not found") :=
  ⟨rfl, rfl, rfl⟩

/-- C4. In every successful feed response the `hasMore` flag equals
(number of returned posts == parsed limit); concretely, a store holding
exactly one post queried with `limit = 1` reports `hasMore = true`
although no further rows exist. -/
theorem getPosts_hasMore_eq_returned_count :
    (∀ (store : List Post) (users : Except Unit (List AuthUser))
        (fmt : String → String) (q : PostsQuery) (resp : PostsResponse),
      getPostsHandler store false users fmt q = Except.ok resp →
      resp.pagination.hasMore = (resp.posts.length == q.limit))
    ∧ feedHasMore (getPostsHandler [samplePost] false (Except.error ())
        (fun x => x) { page := 1, limit := 1, type := none }) = some true
    ∧ List.drop 1 [samplePost] = [] := by
  refine ⟨?_, rfl, rfl⟩
  intro store users fmt q resp h
  simp only [getPostsHandler] at h
  injection h with h
  subst h
  simp [List.length_map]

/-- Witness for C4 at a concrete input: the empty store with the
default query yields `hasMore = false = (0 == 10)`. -/
theorem getPosts_hasMore_witness :
    ({ posts := [], pagination := { page := 1, limit := 10, total := 0, hasMore := false } } :
        PostsResponse).pagination.hasMore =
      (({ posts := [], pagination := { page := 1, limit := 10, total := 0, hasMore := false } } :
        PostsResponse).posts.length == ({} : PostsQuery).limit) :=
  getPosts_hasMore_eq_returned_count.1 [] (Except.error ()) (fun x => x) {} _ rfl

/-- C10. In every successful feed response, `pagination.total` is the
length of the returned page itself (hence at most the parsed limit),
not a count of all matching rows in the store. -/
theorem getPosts_total_is_page_length :
    ∀ (store : List Post) (users : Except Unit (List AuthUser))
      (fmt : String → String) (q : PostsQuery) (resp : PostsResponse),
      getPostsHandler store false users fmt q = Except.ok resp →
      resp.pagination.total = resp.posts.length ∧ resp.pagination.total ≤ q.limit := by
  intro store users fmt q resp h
  simp only [getPostsHandler] at h
  injection h with h
  subst h
  refine ⟨by simp [List.length_map], ?_⟩
  simp only [runPostsQuery]
  exact List.length_take_le _ _

/-- Witness for C10 at a concrete input: a one-post store with
`limit = 1` gives `total = 1 ≤ 1`. -/
theorem getPosts_total_witness :
    onePostResp.pagination.total = onePostResp.posts.length ∧
      onePostResp.pagination.total ≤ 1 :=
  getPosts_total_is_page_length [samplePost] (Except.error ()) (fun x => x)
    { page := 1, limit := 1, type := none } onePostResp rfl

/-- Counterexample to C1 as stated: on the spec's own example record
`{email:"a@x.com", full_name:"Ann Lee"}` with no username, the
top-level `getUserInfo` — the deriver used by every live endpoint —
produces handle `"a"` (the email local-part), not the refined chain's
`"Ann"`. -/
theorem identity_live_deriver_skips_first_name :
    (getUserInfo annLeeRecord).username = "a" ∧
      (getUserInfo annLeeRecord).username ≠ "Ann" :=
  ⟨by decide, by decide⟩

/-- C1 amended. The refined fallback chain lives only in the local
`getUserInfo` duplicate inside `GET /api/posts/:id` (dead code): there,
handle = username when truthy, else the first space-delimited token of
fullName when non-empty and different from the email local-part, else
the local-part; fullName and accountType follow their chains. The
top-level `getUserInfo` used by the live endpoints derives
handle = username else email local-part, so the spec example yields
`"Ann"` only through the duplicate and `"a"` through the live deriver. -/
theorem identity_refined_chain_only_in_duplicate (u : AuthUser) :
    (jsTruthyStr u.username = true →
      (getUserInfoLocal u).username = u.username.getD "")
    ∧ (jsTruthyStr u.username = false → firstNameCandidate u ≠ "" →
        firstNameCandidate u ≠ emailLocalPart u.email →
        (getUserInfoLocal u).username = firstNameCandidate u)
    ∧ (jsTruthyStr u.username = false →
        (firstNameCandidate u = "" ∨ firstNameCandidate u = emailLocalPart u.email) →
        (getUserInfoLocal u).username = emailLocalPart u.email)
    ∧ (getUserInfoLocal u).fullName = derivedFullName u
    ∧ (getUserInfoLocal u).accountType = jsOr u.account_type "free"
    ∧ (getUserInfo u).username = jsOr u.username (emailLocalPart u.email)
    ∧ (getUserInfoLocal annLeeRecord).username = "Ann"
    ∧ (getUserInfo annLeeRecord).username = "a" := by
  refine ⟨?_, ?_, ?_, rfl, rfl, rfl, by decide, by decide⟩
  · intro h
    simp [getUserInfoLocal, h]
  · intro h1 h2 h3
    simp [getUserInfoLocal, h1, h2, h3]
  · intro h1 h2
    rcases h2 with h | h
    · simp [getUserInfoLocal, h1, h]
    · simp [getUserInfoLocal, h1, h]

/-- Witness for the C1 amended theorem at the spec's example record:
no username is set, the first token "Ann" is non-empty and differs from
the local-part "a", and the duplicate derives handle "Ann". -/
theorem identity_refined_chain_witness :
    (getUserInfoLocal annLeeRecord).username = firstNameCandidate annLeeRecord :=
  (identity_refined_chain_only_in_duplicate annLeeRecord).2.1
    (by decide) (by decide) (by decide)

/-- C3. With truthy postId, content and userId and a successful comment
insert, `POST /api/comments` answers 201 with the created comment, and
its response does not depend on whether the comment-count increment
RPC fails — the increment error is only logged. -/
theorem createComment_201_despite_increment_failure
    (req : CommentReq) (c : Comment) (uf : Except Unit (Option AuthUser))
    (b : Bool) (h1 : jsTruthyInt req.postId = true)
    (h2 : jsTruthyStr req.content = true)
    (h3 : jsTruthyStr req.userId = true) :
    createCommentHandler req (Except.ok c) b uf =
      createCommentHandler req (Except.ok c) false uf
    ∧ (createCommentHandler req (Except.ok c) b uf).status = 201
    ∧ (createCommentHandler req (Except.ok c) b uf).comment =
        some { id := c.id, content := c.content, timestamp := "Just now"
               author := createResponseAuthor uf } := by
  refine ⟨?_, ?_, ?_⟩ <;> simp [createCommentHandler, h1, h2, h3]

/-- Witness for C3: a concrete comment is created with the increment
collaborator failing, and the response status is still 201. -/
theorem createComment_witness :
    (createCommentHandler sampleCommentReq (Except.ok sampleComment) true
      (Except.error ())).status = 201 :=
  (createComment_201_despite_increment_failure sampleCommentReq sampleComment
    (Except.error ()) true rfl rfl rfl).2.1

/-- C5. The sentinel author is `{name:"Anonymous", username:"anonymous"}`
with avatar `"A"`; both composers emit it for every creator id the user
map does not resolve; and when the batched identity lookup fails, both
handlers still answer successfully with every author resolved through
the sentinel — the lookup failure is never propagated. -/
theorem anonymous_fallback_and_lookup_failure :
    anonymousAuthor = { name := "Anonymous", username := "anonymous", avatar := "A" }
    ∧ (∀ (m : String → Option UserInfo) (fmt : String → String) (p : Post),
        m p.user_id = none → (transformPost m fmt p).author = anonymousAuthor)
    ∧ (∀ (m : String → Option UserInfo) (fmt : String → String) (c : Comment),
        m c.user_id = none → (transformComment m fmt c).author = anonymousAuthor)
    ∧ (∀ (store : List Post) (fmt : String → String) (q : PostsQuery),
        ∃ resp, getPostsHandler store false (Except.error ()) fmt q = Except.ok resp
          ∧ ∀ pp ∈ resp.posts, pp.author = anonymousAuthor)
    ∧ (∀ (rows : List Comment) (fmt : String → String),
        ∃ cs, getCommentsHandler (Except.ok rows) (Except.error ()) fmt = Except.ok cs
          ∧ ∀ pc ∈ cs, pc.author = anonymousAuthor) := by
  refine ⟨by decide, transformPost_author_of_unresolved,
    transformComment_author_of_unresolved, ?_, ?_⟩
  · intro store fmt q
    refine ⟨_, rfl, ?_⟩
    intro pp hpp
    rw [List.mem_map] at hpp
    obtain ⟨p, _, rfl⟩ := hpp
    exact transformPost_author_of_unresolved _ _ _ (buildUserMap_nil _)
  · intro rows fmt
    refine ⟨_, rfl, ?_⟩
    intro pc hpc
    rw [List.mem_map] at hpc
    obtain ⟨c, _, rfl⟩ := hpc
    exact transformComment_author_of_unresolved _ _ _ (buildUserMap_nil _)

/-- Witness for C5 at a concrete row: with a user map resolving
nothing, the composed sample post carries the sentinel author. -/
theorem anonymous_fallback_witness :
    (transformPost (fun _ => none) (fun x => x) samplePost).author =
      anonymousAuthor :=
  anonymous_fallback_and_lookup_failure.2.1 (fun _ => none) (fun x => x)
    samplePost rfl

/-- Counterexample to C6 as stated: the code splits on the space
character only, so the whitespace-splitting deriver of the claim
disagrees with it on a tab-separated name — the code yields "J" where
whitespace splitting yields "JD". -/
theorem initials_tab_not_whitespace :
    createAvatarInitials (some "Jane\tDoe") = "J"
    ∧ specWhitespaceInitials (some "Jane\tDoe") = "JD"
    ∧ createAvatarInitials (some "Jane\tDoe") ≠
        specWhitespaceInitials (some "Jane\tDoe") :=
  ⟨by decide, by decide, by decide⟩

/-- C6 amended. The deriver is pure and total; an absent or empty name
yields "U"; otherwise it splits on the space character (not general
whitespace), takes the first character of each segment (an empty
segment contributes nothing), concatenates, uppercases and truncates to
at most two characters: "Jane Doe" ↦ "JD", "Madonna" ↦ "M",
"a b c" ↦ "AB", "a  b" ↦ "AB", while tab-separated "Jane\tDoe" is a
single token and maps to "J". -/
theorem initials_space_split_examples :
    createAvatarInitials none = "U"
    ∧ createAvatarInitials (some "") = "U"
    ∧ createAvatarInitials (some "Jane Doe") = "JD"
    ∧ createAvatarInitials (some "Madonna") = "M"
    ∧ createAvatarInitials (some "a b c") = "AB"
    ∧ createAvatarInitials (some "a  b") = "AB"
    ∧ createAvatarInitials (some "Jane\tDoe") = "J" := by
  refine ⟨rfl, by decide, by decide, by decide, by decide, by decide, by decide⟩

/-- C7. Whenever any of type, title, content or userId is missing or
empty, `POST /api/posts` answers 400 and hands nothing to the store:
no insert is attempted, so the store is untouched. -/
theorem createPost_validation_400_no_insert
    (req : PostReq) (now : String) (b : Bool) (assignId : PostData → Int)
    (uf : Except Unit (Option AuthUser))
    (h : jsTruthyStr req.type = false ∨ jsTruthyStr req.title = false ∨
         jsTruthyStr req.content = false ∨ jsTruthyStr req.userId = false) :
    (createPostHandler req now b assignId uf).status = 400
    ∧ (createPostHandler req now b assignId uf).attemptedInsert = none := by
  by_cases hc : (jsTruthyStr req.type && jsTruthyStr req.title &&
      jsTruthyStr req.content) = true
  · rcases h with h | h | h | h
    · simp [h] at hc
    · simp [h] at hc
    · simp [h] at hc
    · simp [createPostHandler, hc, h]
  · have hc' : (jsTruthyStr req.type && jsTruthyStr req.title &&
        jsTruthyStr req.content) = false := by
      simpa using hc
    simp [createPostHandler, hc']

/-- Witness for C7: a request with no title is rejected with 400 and no
record is handed to the insert. -/
theorem createPost_validation_witness :
    (createPostHandler missingTitleReq "now" false (fun _ => 1)
        (Except.error ())).status = 400
    ∧ (createPostHandler missingTitleReq "now" false (fun _ => 1)
        (Except.error ())).attemptedInsert = none :=
  createPost_validation_400_no_insert missingTitleReq "now" false (fun _ => 1)
    (Except.error ()) (Or.inr (Or.inl rfl))

/-- Counterexample to C8 as stated: a failed read of the like count
produces a 404 response, not the claimed 500 — the handler folds the
fetch error into its not-found branch. -/
theorem likePost_read_failure_is_404 :
    (likePostHandler (Except.error ()) false).status = 404
    ∧ (likePostHandler (Except.error ()) false).status ≠ 500 :=
  ⟨rfl, by decide⟩

/-- C8 amended. On a row that was read, the handler increments the like
count by exactly one (an absent count counting as zero), hands the new
count to the update and answers 200 with liked:true and that count; an
unknown post id or a read failure both land in the 404 branch; only a
write failure yields 500 — and even then the attempted write was the
incremented count. -/
theorem likePost_increment_and_statuses (l : Option Int) (u : Bool) :
    likePostHandler (Except.ok (some { likes := l })) false =
      { status := 200, liked := some true, likes := some (l.getD 0 + 1)
        error := none, written := some (l.getD 0 + 1) }
    ∧ (likePostHandler (Except.ok none) u).status = 404
    ∧ (likePostHandler (Except.error ()) u).status = 404
    ∧ (likePostHandler (Except.ok (some { likes := l })) true).status = 500
    ∧ (likePostHandler (Except.ok (some { likes := l })) true).written =
        some (l.getD 0 + 1) :=
  ⟨rfl, rfl, rfl, rfl, rfl⟩

/-- C9. With a valid body: when type is "recipe" and a recipe payload
is present, the payload is stored in `recipe_data` and returned
unchanged in the response's recipe field; when type is "text", the
record handed to the insert carries no recipe_data, whatever the
insert outcome. -/
theorem createPost_recipe_roundtrip
    (req : PostReq) (now : String) (assignId : PostData → Int)
    (uf : Except Unit (Option AuthUser)) (b : Bool)
    (h1 : jsTruthyStr req.type = true) (h2 : jsTruthyStr req.title = true)
    (h3 : jsTruthyStr req.content = true)
    (h4 : jsTruthyStr req.userId = true) :
    (∀ r, req.type = some "recipe" → req.recipe = some r →
      postRecipeOf (createPostHandler req now false assignId uf) = some (some r)
      ∧ insertRecipeOf (createPostHandler req now false assignId uf) = some (some r))
    ∧ (req.type = some "text" →
        insertRecipeOf (createPostHandler req now b assignId uf) = some none) := by
  constructor
  · intro r hty hr
    have hT : jsTruthyStr (some "recipe") = true := by decide
    constructor <;>
      simp [createPostHandler, postRecipeOf, insertRecipeOf, hty, hr, hT, h2, h3, h4]
  · intro hty
    have hT : jsTruthyStr (some "text") = true := by decide
    cases b <;>
      simp [createPostHandler, insertRecipeOf, hty, hT, h2, h3, h4]

/-- Witness for C9: a concrete recipe request round-trips its payload
into the response recipe field and the inserted record. -/
theorem createPost_recipe_witness :
    postRecipeOf (createPostHandler recipeReq "now" false (fun _ => 1)
        (Except.error ())) = some (some "pancakes")
    ∧ insertRecipeOf (createPostHandler recipeReq "now" false (fun _ => 1)
        (Except.error ())) = some (some "pancakes") :=
  (createPost_recipe_roundtrip recipeReq "now" (fun _ => 1) (Except.error ())
    false rfl rfl rfl rfl).1 "pancakes" rfl rfl

end Render
